import Mathlib

/-!
Verification of the flag/config resolution core of `agent-browser`
(`src/cli/src/flags.rs`): the config-layer loader `load_config`, the
precedence resolver `parse_flags`, and the global-flag stripper `clean_args`.

The filesystem and environment accesses are hoisted into explicit
parameters, as the spec itself prescribes for the component interfaces:
`load_config` receives the parse result of each config layer
(`none` = file absent or unparsable JSON), and `parse_flags` receives an
environment accessor `String → Option String` and the already-loaded
config tree.  JSON objects are modelled as association lists; the
serde_json map is ordered differently internally, but all observations
the program makes go through key lookup, which agrees.
-/

/-- JSON-like values, mirroring `serde_json::Value`. -/
inductive Json where
  | null : Json
  | bool : Bool → Json
  | num : Int → Json
  | str : String → Json
  | arr : List Json → Json
  | obj : List (String × Json) → Json

/-- First-match key lookup in an object's field list
(`serde_json::Map::get`). -/
def lookupKey : List (String × Json) → String → Option Json
  | [], _ => none
  | (k', v') :: rest, k => if k' = k then some v' else lookupKey rest k

/-- Replace the value at a key, or append the binding
(`serde_json::Map::insert`). -/
def insertKey : List (String × Json) → String → Json → List (String × Json)
  | [], k, v => [(k, v)]
  | (k', v') :: rest, k, v =>
    if k' = k then (k, v) :: rest else (k', v') :: insertKey rest k v

/-- `Value::get(key)`: `none` on anything but an object. -/
def Json.get : Json → String → Option Json
  | Json.obj fields, k => lookupKey fields k
  | _, _ => none

/-- `Value::as_bool()`. -/
def Json.as_bool : Json → Option Bool
  | Json.bool b => some b
  | _ => none

/-- `Value::as_str()`. -/
def Json.as_str : Json → Option String
  | Json.str s => some s
  | _ => none

/-- `Value::as_array()`. -/
def Json.as_array : Json → Option (List Json)
  | Json.arr xs => some xs
  | _ => none

/-- `Value::as_object()`. -/
def Json.as_object : Json → Option (List (String × Json))
  | Json.obj fields => some fields
  | _ => none

/-- `load_config` from `flags.rs`, with the two file reads+parses hoisted
into parameters (`none` = read failed or JSON parse failed).  The user
layer, when parsed, is adopted wholesale; the project layer is overlaid
key-by-key only when both the working tree and the project value are
objects. -/
def load_config (userParsed projectParsed : Option Json) : Json :=
  let config := match userParsed with
    | some v => v
    | none => Json.obj []
  match projectParsed with
  | none => config
  | some parsed =>
    match config.as_object, parsed.as_object with
    | some base, some project =>
      Json.obj (project.foldl (fun acc kv => insertKey acc kv.1 kv.2) base)
    | _, _ => config

/-- The `Flags` struct of `flags.rs`. -/
structure Flags where
  json : Bool
  full : Bool
  headed : Bool
  debug : Bool
  session : String
  headers : Option String
  executable_path : Option String
  cdp : Option String
  extensions : List String
  profile : Option String
  state : Option String
  proxy : Option String
  proxy_bypass : Option String
  args : Option String
  user_agent : Option String
  provider : Option String
  ignore_https_errors : Bool
  allow_file_access : Bool
  device : Option String
  auto_connect : Bool
  session_name : Option String
  cli_executable_path : Bool
  cli_extensions : Bool
  cli_profile : Bool
  cli_state : Bool
  cli_args : Bool
  cli_user_agent : Bool
  cli_proxy : Bool
  cli_proxy_bypass : Bool
  cli_allow_file_access : Bool
deriving DecidableEq, Repr

/-- Split a character list on `,` (`str::split(',')`): always at least one
piece, an empty piece for each adjacent pair of separators and at the
ends.  `acc` holds the reversed characters of the current piece. -/
def splitComma (acc : List Char) : List Char → List (List Char)
  | [] => [acc.reverse]
  | c :: cs => if c = ',' then acc.reverse :: splitComma [] cs else splitComma (c :: acc) cs

/-- Drop leading and trailing whitespace characters (`str::trim`). -/
def trimChars (l : List Char) : List Char :=
  ((l.dropWhile Char.isWhitespace).reverse.dropWhile Char.isWhitespace).reverse

/-- The comma-split of `AGENT_BROWSER_EXTENSIONS`: split on `,`, trim each
piece, drop empties.  Modelled on character lists so that it is kernel
executable; Rust's `char::is_whitespace` is modelled by
`Char.isWhitespace`. -/
def splitExtensions (s : String) : List String :=
  ((splitComma [] s.data).map (fun p => String.mk (trimChars p))).filter (fun p => p ≠ "")

/-- The pre-CLI `Flags` value built at the top of `parse_flags`: for each
option, environment variable first, then the config tree, then the
hard-coded default. -/
def initFlags (env : String → Option String) (config : Json) : Flags :=
  let extensions_env := ((env "AGENT_BROWSER_EXTENSIONS").map splitExtensions).getD []
  { json := false
    full := false
    headed := (env "AGENT_BROWSER_HEADED").isSome
      || (((config.get "headed").bind Json.as_bool).getD false)
    debug := false
    session := ((env "AGENT_BROWSER_SESSION").or
      ((config.get "session").bind Json.as_str)).getD "default"
    headers := none
    executable_path := (env "AGENT_BROWSER_EXECUTABLE_PATH").or
      ((config.get "executablePath").bind Json.as_str)
    cdp := none
    extensions := if extensions_env ≠ [] then extensions_env
      else (((config.get "extensions").bind Json.as_array).map
        (fun a => a.filterMap Json.as_str)).getD []
    profile := (env "AGENT_BROWSER_PROFILE").or
      ((config.get "profile").bind Json.as_str)
    state := (env "AGENT_BROWSER_STATE").or
      ((config.get "state").bind Json.as_str)
    proxy := (env "AGENT_BROWSER_PROXY").or
      ((config.get "proxy").bind Json.as_str)
    proxy_bypass := (env "AGENT_BROWSER_PROXY_BYPASS").or
      ((config.get "proxyBypass").bind Json.as_str)
    args := (env "AGENT_BROWSER_ARGS").or
      ((config.get "args").bind Json.as_str)
    user_agent := (env "AGENT_BROWSER_USER_AGENT").or
      ((config.get "userAgent").bind Json.as_str)
    provider := (env "AGENT_BROWSER_PROVIDER").or
      ((config.get "provider").bind Json.as_str)
    ignore_https_errors := ((config.get "ignoreHttpsErrors").bind Json.as_bool).getD false
    allow_file_access := (env "AGENT_BROWSER_ALLOW_FILE_ACCESS").isSome
      || (((config.get "allowFileAccess").bind Json.as_bool).getD false)
    device := (env "AGENT_BROWSER_IOS_DEVICE").or
      ((config.get "device").bind Json.as_str)
    auto_connect := (env "AGENT_BROWSER_AUTO_CONNECT").isSome
      || (((config.get "autoConnect").bind Json.as_bool).getD false)
    session_name := (env "AGENT_BROWSER_SESSION_NAME").or
      ((config.get "sessionName").bind Json.as_str)
    cli_executable_path := false
    cli_extensions := false
    cli_profile := false
    cli_state := false
    cli_args := false
    cli_user_agent := false
    cli_proxy := false
    cli_proxy_bypass := false
    cli_allow_file_access := false }

/-- The CLI scanning loop of `parse_flags` (`while i < args.len()`): one
left-to-right pass; a value-taking flag consults the next token and, when
present, consumes it as its value. -/
def parseLoop : List String → Flags → Flags
  | [], f => f
  | tok :: rest, f =>
    if tok = "--json" then parseLoop rest { f with json := true }
    else if tok = "--full" ∨ tok = "-f" then parseLoop rest { f with full := true }
    else if tok = "--headed" then parseLoop rest { f with headed := true }
    else if tok = "--debug" then parseLoop rest { f with debug := true }
    else if tok = "--session" then
      match rest with
      | [] => f
      | v :: rest' => parseLoop rest' { f with session := v }
    else if tok = "--headers" then
      match rest with
      | [] => f
      | v :: rest' => parseLoop rest' { f with headers := some v }
    else if tok = "--executable-path" then
      match rest with
      | [] => f
      | v :: rest' =>
        parseLoop rest' { f with executable_path := some v, cli_executable_path := true }
    else if tok = "--extension" then
      match rest with
      | [] => f
      | v :: rest' =>
        parseLoop rest' { f with extensions := f.extensions ++ [v], cli_extensions := true }
    else if tok = "--cdp" then
      match rest with
      | [] => f
      | v :: rest' => parseLoop rest' { f with cdp := some v }
    else if tok = "--profile" then
      match rest with
      | [] => f
      | v :: rest' => parseLoop rest' { f with profile := some v, cli_profile := true }
    else if tok = "--state" then
      match rest with
      | [] => f
      | v :: rest' => parseLoop rest' { f with state := some v, cli_state := true }
    else if tok = "--proxy" then
      match rest with
      | [] => f
      | v :: rest' => parseLoop rest' { f with proxy := some v, cli_proxy := true }
    else if tok = "--proxy-bypass" then
      match rest with
      | [] => f
      | v :: rest' => parseLoop rest' { f with proxy_bypass := some v, cli_proxy_bypass := true }
    else if tok = "--args" then
      match rest with
      | [] => f
      | v :: rest' => parseLoop rest' { f with args := some v, cli_args := true }
    else if tok = "--user-agent" then
      match rest with
      | [] => f
      | v :: rest' => parseLoop rest' { f with user_agent := some v, cli_user_agent := true }
    else if tok = "-p" ∨ tok = "--provider" then
      match rest with
      | [] => f
      | v :: rest' => parseLoop rest' { f with provider := some v }
    else if tok = "--ignore-https-errors" then parseLoop rest { f with ignore_https_errors := true }
    else if tok = "--allow-file-access" then
      parseLoop rest { f with allow_file_access := true, cli_allow_file_access := true }
    else if tok = "--device" then
      match rest with
      | [] => f
      | v :: rest' => parseLoop rest' { f with device := some v }
    else if tok = "--auto-connect" then parseLoop rest { f with auto_connect := true }
    else if tok = "--session-name" then
      match rest with
      | [] => f
      | v :: rest' => parseLoop rest' { f with session_name := some v }
    else parseLoop rest f

/-- `parse_flags` from `flags.rs`, with the loaded config tree passed in
(`load_config`'s result in the source). -/
def parse_flags (env : String → Option String) (config : Json) (tokens : List String) : Flags :=
  parseLoop tokens (initFlags env config)

/-- `GLOBAL_FLAGS` from `clean_args`: value-less global flags. -/
def GLOBAL_FLAGS : List String :=
  ["--json", "--full", "--headed", "--debug", "--ignore-https-errors",
   "--allow-file-access", "--auto-connect"]

/-- `GLOBAL_FLAGS_WITH_VALUE` from `clean_args`: global flags that consume
the following token as a value. -/
def GLOBAL_FLAGS_WITH_VALUE : List String :=
  ["--session", "--headers", "--executable-path", "--cdp", "--extension",
   "--profile", "--state", "--proxy", "--proxy-bypass", "--args",
   "--user-agent", "-p", "--provider", "--device", "--session-name"]

/-- `clean_args` from `flags.rs`: drop recognized global flags (and, for
value-taking ones, the immediately following token) in one pass; the
`skip_next` flag of the source is realised by consuming two list cells at
once. -/
def clean_args : List String → List String
  | [] => []
  | arg :: rest =>
    if GLOBAL_FLAGS_WITH_VALUE.contains arg then
      match rest with
      | [] => []
      | _ :: rest' => clean_args rest'
    else if GLOBAL_FLAGS.contains arg || arg = "-f" then clean_args rest
    else arg :: clean_args rest

/-- The empty environment: every variable absent. -/
def emptyEnv : String → Option String := fun _ => none

/-- The per-flag effect of one value-taking flag occurrence with its value
token, as one table: used to state that the parse loop and the stripper
walk the token list in lockstep. -/
def applyValue (t v : String) (f : Flags) : Flags :=
  if t = "--session" then { f with session := v }
  else if t = "--headers" then { f with headers := some v }
  else if t = "--executable-path" then
    { f with executable_path := some v, cli_executable_path := true }
  else if t = "--extension" then
    { f with extensions := f.extensions ++ [v], cli_extensions := true }
  else if t = "--cdp" then { f with cdp := some v }
  else if t = "--profile" then { f with profile := some v, cli_profile := true }
  else if t = "--state" then { f with state := some v, cli_state := true }
  else if t = "--proxy" then { f with proxy := some v, cli_proxy := true }
  else if t = "--proxy-bypass" then { f with proxy_bypass := some v, cli_proxy_bypass := true }
  else if t = "--args" then { f with args := some v, cli_args := true }
  else if t = "--user-agent" then { f with user_agent := some v, cli_user_agent := true }
  else if t = "-p" ∨ t = "--provider" then { f with provider := some v }
  else if t = "--device" then { f with device := some v }
  else if t = "--session-name" then { f with session_name := some v }
  else f

/-- The per-flag effect of one value-less flag occurrence, as one table. -/
def applyBool (t : String) (f : Flags) : Flags :=
  if t = "--json" then { f with json := true }
  else if t = "--full" ∨ t = "-f" then { f with full := true }
  else if t = "--headed" then { f with headed := true }
  else if t = "--debug" then { f with debug := true }
  else if t = "--ignore-https-errors" then { f with ignore_https_errors := true }
  else if t = "--allow-file-access" then
    { f with allow_file_access := true, cli_allow_file_access := true }
  else if t = "--auto-connect" then { f with auto_connect := true }
  else f

/-- Whether the scan of the token list reaches an occurrence of
`--executable-path` as a flag (not as a preceding value-taking flag's
value) that still has a following token: exactly the condition under
which the loop sets `cli_executable_path`. -/
def hitsExecPath : List String → Bool
  | [] => false
  | t :: rest =>
    if GLOBAL_FLAGS_WITH_VALUE.contains t then
      match rest with
      | [] => false
      | _ :: rest' => t = "--executable-path" || hitsExecPath rest'
    else hitsExecPath rest

/-! ### Step lemmas: the parse loop and the stripper consume the token
list in the same segments. -/

theorem parseLoop_value_step (t v : String) (rest : List String) (f : Flags)
    (h : t ∈ GLOBAL_FLAGS_WITH_VALUE) :
    parseLoop (t :: v :: rest) f = parseLoop rest (applyValue t v f) := by
  simp only [GLOBAL_FLAGS_WITH_VALUE, List.mem_cons, List.not_mem_nil, or_false] at h
  rcases h with h|h|h|h|h|h|h|h|h|h|h|h|h|h|h <;> subst h <;>
    (rw [parseLoop.eq_def]; simp [applyValue])

theorem parseLoop_value_last (t : String) (f : Flags)
    (h : t ∈ GLOBAL_FLAGS_WITH_VALUE) :
    parseLoop [t] f = f := by
  simp only [GLOBAL_FLAGS_WITH_VALUE, List.mem_cons, List.not_mem_nil, or_false] at h
  rcases h with h|h|h|h|h|h|h|h|h|h|h|h|h|h|h <;> subst h <;>
    (rw [parseLoop.eq_def]; simp)

theorem parseLoop_bool_step (t : String) (rest : List String) (f : Flags)
    (h : t ∈ GLOBAL_FLAGS ∨ t = "-f") :
    parseLoop (t :: rest) f = parseLoop rest (applyBool t f) := by
  simp only [GLOBAL_FLAGS, List.mem_cons, List.not_mem_nil, or_false] at h
  rcases h with (h|h|h|h|h|h|h)|h <;> subst h <;>
    (rw [parseLoop.eq_def]; simp [applyBool])

theorem parseLoop_other_step (t : String) (rest : List String) (f : Flags)
    (h1 : t ∉ GLOBAL_FLAGS_WITH_VALUE) (h2 : t ∉ GLOBAL_FLAGS) (h3 : t ≠ "-f") :
    parseLoop (t :: rest) f = parseLoop rest f := by
  simp only [GLOBAL_FLAGS_WITH_VALUE, List.mem_cons, List.not_mem_nil, or_false,
    not_or] at h1
  simp only [GLOBAL_FLAGS, List.mem_cons, List.not_mem_nil, or_false, not_or] at h2
  rw [parseLoop.eq_def]
  simp_all

theorem clean_args_value_step (t v : String) (rest : List String)
    (h : t ∈ GLOBAL_FLAGS_WITH_VALUE) :
    clean_args (t :: v :: rest) = clean_args rest := by
  rw [clean_args.eq_def]
  simp [h]

theorem clean_args_value_last (t : String) (h : t ∈ GLOBAL_FLAGS_WITH_VALUE) :
    clean_args [t] = [] := by
  rw [clean_args.eq_def]
  simp [h]

theorem clean_args_bool_step (t : String) (rest : List String)
    (h1 : t ∉ GLOBAL_FLAGS_WITH_VALUE) (h : t ∈ GLOBAL_FLAGS ∨ t = "-f") :
    clean_args (t :: rest) = clean_args rest := by
  rw [clean_args.eq_def]
  simp [h1, h]

theorem clean_args_other_step (t : String) (rest : List String)
    (h1 : t ∉ GLOBAL_FLAGS_WITH_VALUE) (h2 : t ∉ GLOBAL_FLAGS) (h3 : t ≠ "-f") :
    clean_args (t :: rest) = t :: clean_args rest := by
  rw [clean_args.eq_def]
  simp [h1, h2, h3]

/-! ### Field preservation: a flag absent from the token list never
touches its field. -/

theorem parseLoop_session_eq (l : List String) (f : Flags) (h : "--session" ∉ l) :
    (parseLoop l f).session = f.session := by
  induction l, f using parseLoop.induct <;>
    first
    | rfl
    | (rw [parseLoop.eq_def]; simp_all)

theorem parseLoop_executable_path_eq (l : List String) (f : Flags)
    (h : "--executable-path" ∉ l) :
    (parseLoop l f).executable_path = f.executable_path := by
  induction l, f using parseLoop.induct <;>
    first
    | rfl
    | (rw [parseLoop.eq_def]; simp_all)

theorem parseLoop_extensions_eq (l : List String) (f : Flags) (h : "--extension" ∉ l) :
    (parseLoop l f).extensions = f.extensions := by
  induction l, f using parseLoop.induct <;>
    first
    | rfl
    | (rw [parseLoop.eq_def]; simp_all)

theorem parseLoop_profile_eq (l : List String) (f : Flags) (h : "--profile" ∉ l) :
    (parseLoop l f).profile = f.profile := by
  induction l, f using parseLoop.induct <;>
    first
    | rfl
    | (rw [parseLoop.eq_def]; simp_all)

theorem parseLoop_state_eq (l : List String) (f : Flags) (h : "--state" ∉ l) :
    (parseLoop l f).state = f.state := by
  induction l, f using parseLoop.induct <;>
    first
    | rfl
    | (rw [parseLoop.eq_def]; simp_all)

theorem parseLoop_proxy_eq (l : List String) (f : Flags) (h : "--proxy" ∉ l) :
    (parseLoop l f).proxy = f.proxy := by
  induction l, f using parseLoop.induct <;>
    first
    | rfl
    | (rw [parseLoop.eq_def]; simp_all)

theorem parseLoop_proxy_bypass_eq (l : List String) (f : Flags) (h : "--proxy-bypass" ∉ l) :
    (parseLoop l f).proxy_bypass = f.proxy_bypass := by
  induction l, f using parseLoop.induct <;>
    first
    | rfl
    | (rw [parseLoop.eq_def]; simp_all)

theorem parseLoop_args_eq (l : List String) (f : Flags) (h : "--args" ∉ l) :
    (parseLoop l f).args = f.args := by
  induction l, f using parseLoop.induct <;>
    first
    | rfl
    | (rw [parseLoop.eq_def]; simp_all)

theorem parseLoop_user_agent_eq (l : List String) (f : Flags) (h : "--user-agent" ∉ l) :
    (parseLoop l f).user_agent = f.user_agent := by
  induction l, f using parseLoop.induct <;>
    first
    | rfl
    | (rw [parseLoop.eq_def]; simp_all)

theorem parseLoop_provider_eq (l : List String) (f : Flags)
    (hp : "-p" ∉ l) (h : "--provider" ∉ l) :
    (parseLoop l f).provider = f.provider := by
  induction l, f using parseLoop.induct <;>
    first
    | rfl
    | (rw [parseLoop.eq_def]; simp_all; done)
    | (rw [parseLoop.eq_def]; exfalso; simp_all [eq_comm])

theorem parseLoop_device_eq (l : List String) (f : Flags) (h : "--device" ∉ l) :
    (parseLoop l f).device = f.device := by
  induction l, f using parseLoop.induct <;>
    first
    | rfl
    | (rw [parseLoop.eq_def]; simp_all)

theorem parseLoop_session_name_eq (l : List String) (f : Flags) (h : "--session-name" ∉ l) :
    (parseLoop l f).session_name = f.session_name := by
  induction l, f using parseLoop.induct <;>
    first
    | rfl
    | (rw [parseLoop.eq_def]; simp_all)

/-! ### Monotonicity: CLI tokens only ever force the boolean fields to
`true`. -/

theorem parseLoop_headed_mono (l : List String) (f : Flags) (h : f.headed = true) :
    (parseLoop l f).headed = true := by
  induction l, f using parseLoop.induct <;> (rw [parseLoop.eq_def]; simp_all)

theorem parseLoop_allow_file_access_mono (l : List String) (f : Flags)
    (h : f.allow_file_access = true) :
    (parseLoop l f).allow_file_access = true := by
  induction l, f using parseLoop.induct <;> (rw [parseLoop.eq_def]; simp_all)

theorem parseLoop_auto_connect_mono (l : List String) (f : Flags)
    (h : f.auto_connect = true) :
    (parseLoop l f).auto_connect = true := by
  induction l, f using parseLoop.induct <;> (rw [parseLoop.eq_def]; simp_all)

/-! ### Provenance of `executablePath`. -/

theorem parseLoop_cli_executable_path_eq (l : List String) (f : Flags) :
    (parseLoop l f).cli_executable_path = (f.cli_executable_path || hitsExecPath l) := by
  induction l, f using parseLoop.induct <;>
    (rw [parseLoop.eq_def, hitsExecPath.eq_def]
     first
     | (simp_all [GLOBAL_FLAGS_WITH_VALUE, hitsExecPath]; done)
     | (casesm _ ∨ _ <;> simp_all [GLOBAL_FLAGS_WITH_VALUE, hitsExecPath]))

/-! ### Global properties of the stripper. -/

theorem clean_args_sublist (l : List String) : List.Sublist (clean_args l) l := by
  induction l using clean_args.induct with
  | case1 => exact List.Sublist.refl _
  | case2 t h =>
    rw [clean_args_value_last t (by simpa using h)]
    exact List.nil_sublist _
  | case3 t h v rest' ih =>
    rw [clean_args_value_step t v rest' (by simpa using h)]
    exact (ih.cons _).cons _
  | case4 t rest' h1 h2 ih =>
    rw [clean_args_bool_step t rest' (by simpa using h1) (by simpa using h2)]
    exact ih.cons _
  | case5 t rest' h1 h2 ih =>
    have h2' : t ∉ GLOBAL_FLAGS ∧ t ≠ "-f" := by simpa [not_or] using h2
    rw [clean_args_other_step t rest' (by simpa using h1) h2'.1 h2'.2]
    exact ih.cons₂ _

theorem clean_args_output_unrecognized (l : List String) :
    ∀ x ∈ clean_args l, x ∉ GLOBAL_FLAGS_WITH_VALUE ∧ x ∉ GLOBAL_FLAGS ∧ x ≠ "-f" := by
  induction l using clean_args.induct with
  | case1 => simp [clean_args]
  | case2 t h =>
    rw [clean_args_value_last t (by simpa using h)]
    simp
  | case3 t h v rest' ih =>
    rw [clean_args_value_step t v rest' (by simpa using h)]
    exact ih
  | case4 t rest' h1 h2 ih =>
    rw [clean_args_bool_step t rest' (by simpa using h1) (by simpa using h2)]
    exact ih
  | case5 t rest' h1 h2 ih =>
    have h1' : t ∉ GLOBAL_FLAGS_WITH_VALUE := by simpa using h1
    have h2' : t ∉ GLOBAL_FLAGS ∧ t ≠ "-f" := by simpa [not_or] using h2
    rw [clean_args_other_step t rest' h1' h2'.1 h2'.2]
    intro x hx
    rcases List.mem_cons.mp hx with rfl | hx
    · exact ⟨h1', h2'.1, h2'.2⟩
    · exact ih x hx

theorem clean_args_fixpoint (l : List String)
    (h : ∀ x ∈ l, x ∉ GLOBAL_FLAGS_WITH_VALUE ∧ x ∉ GLOBAL_FLAGS ∧ x ≠ "-f") :
    clean_args l = l := by
  induction l with
  | nil => rfl
  | cons t rest ih =>
    obtain ⟨h1, h2, h3⟩ := h t (by simp)
    rw [clean_args_other_step t rest h1 h2 h3, ih (fun x hx => h x (by simp [hx]))]

/-! ### Key-level behaviour of the config-layer merge. -/

theorem lookupKey_insertKey (l : List (String × Json)) (k k' : String) (v : Json) :
    lookupKey (insertKey l k v) k' = if k = k' then some v else lookupKey l k' := by
  induction l with
  | nil => simp [insertKey, lookupKey]
  | cons kv rest ih =>
    obtain ⟨k0, v0⟩ := kv
    by_cases hk : k0 = k
    · subst hk
      simp only [insertKey, if_pos rfl, lookupKey]
      split_ifs <;> simp_all [lookupKey]
    · simp only [insertKey, if_neg hk, lookupKey, ih]
      split_ifs <;> simp_all

theorem lookupKey_eq_none (l : List (String × Json)) (k : String)
    (h : k ∉ l.map Prod.fst) : lookupKey l k = none := by
  induction l with
  | nil => rfl
  | cons kv rest ih =>
    obtain ⟨k0, v0⟩ := kv
    simp only [List.map_cons, List.mem_cons, not_or] at h
    rw [lookupKey, if_neg (fun hc => h.1 hc.symm)]
    exact ih h.2

theorem lookupKey_merge (p u : List (String × Json)) (k : String)
    (hnd : (p.map Prod.fst).Nodup) :
    lookupKey (p.foldl (fun acc kv => insertKey acc kv.1 kv.2) u) k =
      (lookupKey p k).or (lookupKey u k) := by
  induction p generalizing u with
  | nil => simp [lookupKey]
  | cons kv rest ih =>
    obtain ⟨k0, v0⟩ := kv
    simp only [List.map_cons, List.nodup_cons] at hnd
    rw [List.foldl_cons, ih _ hnd.2, lookupKey_insertKey]
    by_cases hk : k0 = k
    · subst hk
      rw [lookupKey_eq_none rest k0 hnd.1]
      simp [lookupKey]
    · simp [lookupKey, hk]

/-- An environment defining exactly one variable. -/
def envOf (name val : String) : String → Option String :=
  fun n => if n = name then some val else none

/-- A value-less flag name is never in the value-taking flag table. -/
theorem bool_flag_not_value (t : String) (h : t ∈ GLOBAL_FLAGS ∨ t = "-f") :
    t ∉ GLOBAL_FLAGS_WITH_VALUE := by
  rcases h with h|h
  · simp only [GLOBAL_FLAGS, List.mem_cons, List.not_mem_nil, or_false] at h
    rcases h with h|h|h|h|h|h|h <;> subst h <;> decide
  · subst h; decide

/-- C1, counterexample: with `AGENT_BROWSER_EXTENSIONS` set to the empty
string (so its comma-split is empty), the `extensions` config key
defined, and no CLI flag, the resolved `extensions` is the config value,
not the (empty) environment-derived list. -/
theorem claim_C1_counterexample :
    (envOf "AGENT_BROWSER_EXTENSIONS" "") "AGENT_BROWSER_EXTENSIONS" = some "" ∧
    ((Json.obj [("extensions", Json.arr [Json.str "a"])]).get "extensions").isSome = true ∧
    splitExtensions "" = [] ∧
    (parse_flags (envOf "AGENT_BROWSER_EXTENSIONS" "")
      (Json.obj [("extensions", Json.arr [Json.str "a"])]) []).extensions = ["a"] := by
  refine ⟨by decide, by decide, by decide, by decide⟩

/-- C1 (amended): for every option with both an environment variable and a
config key, if the environment variable is set and no CLI flag for that
option occurs in the token list, the resolved field is the
environment-derived value — except that for `extensions` this holds only
when the comma-split of the environment value is non-empty (an empty
split defers to the config value). -/
theorem claim_C1_env_wins (env : String → Option String) (config : Json)
    (tokens : List String) :
    (∀ s, env "AGENT_BROWSER_SESSION" = some s → (config.get "session").isSome = true →
      "--session" ∉ tokens → (parse_flags env config tokens).session = s) ∧
    (∀ s, env "AGENT_BROWSER_EXECUTABLE_PATH" = some s →
      (config.get "executablePath").isSome = true → "--executable-path" ∉ tokens →
      (parse_flags env config tokens).executable_path = some s) ∧
    (∀ s, env "AGENT_BROWSER_PROFILE" = some s → (config.get "profile").isSome = true →
      "--profile" ∉ tokens → (parse_flags env config tokens).profile = some s) ∧
    (∀ s, env "AGENT_BROWSER_STATE" = some s → (config.get "state").isSome = true →
      "--state" ∉ tokens → (parse_flags env config tokens).state = some s) ∧
    (∀ s, env "AGENT_BROWSER_PROXY" = some s → (config.get "proxy").isSome = true →
      "--proxy" ∉ tokens → (parse_flags env config tokens).proxy = some s) ∧
    (∀ s, env "AGENT_BROWSER_PROXY_BYPASS" = some s →
      (config.get "proxyBypass").isSome = true → "--proxy-bypass" ∉ tokens →
      (parse_flags env config tokens).proxy_bypass = some s) ∧
    (∀ s, env "AGENT_BROWSER_ARGS" = some s → (config.get "args").isSome = true →
      "--args" ∉ tokens → (parse_flags env config tokens).args = some s) ∧
    (∀ s, env "AGENT_BROWSER_USER_AGENT" = some s → (config.get "userAgent").isSome = true →
      "--user-agent" ∉ tokens → (parse_flags env config tokens).user_agent = some s) ∧
    (∀ s, env "AGENT_BROWSER_PROVIDER" = some s → (config.get "provider").isSome = true →
      "-p" ∉ tokens → "--provider" ∉ tokens →
      (parse_flags env config tokens).provider = some s) ∧
    (∀ s, env "AGENT_BROWSER_IOS_DEVICE" = some s → (config.get "device").isSome = true →
      "--device" ∉ tokens → (parse_flags env config tokens).device = some s) ∧
    (∀ s, env "AGENT_BROWSER_SESSION_NAME" = some s →
      (config.get "sessionName").isSome = true → "--session-name" ∉ tokens →
      (parse_flags env config tokens).session_name = some s) ∧
    (∀ s, env "AGENT_BROWSER_EXTENSIONS" = some s → (config.get "extensions").isSome = true →
      "--extension" ∉ tokens → splitExtensions s ≠ [] →
      (parse_flags env config tokens).extensions = splitExtensions s) := by
  refine ⟨?_, ?_, ?_, ?_, ?_, ?_, ?_, ?_, ?_, ?_, ?_, ?_⟩
  · intro s h1 _ h3
    rw [parse_flags, parseLoop_session_eq _ _ h3]
    simp [initFlags, h1]
  · intro s h1 _ h3
    rw [parse_flags, parseLoop_executable_path_eq _ _ h3]
    simp [initFlags, h1]
  · intro s h1 _ h3
    rw [parse_flags, parseLoop_profile_eq _ _ h3]
    simp [initFlags, h1]
  · intro s h1 _ h3
    rw [parse_flags, parseLoop_state_eq _ _ h3]
    simp [initFlags, h1]
  · intro s h1 _ h3
    rw [parse_flags, parseLoop_proxy_eq _ _ h3]
    simp [initFlags, h1]
  · intro s h1 _ h3
    rw [parse_flags, parseLoop_proxy_bypass_eq _ _ h3]
    simp [initFlags, h1]
  · intro s h1 _ h3
    rw [parse_flags, parseLoop_args_eq _ _ h3]
    simp [initFlags, h1]
  · intro s h1 _ h3
    rw [parse_flags, parseLoop_user_agent_eq _ _ h3]
    simp [initFlags, h1]
  · intro s h1 _ h3 h4
    rw [parse_flags, parseLoop_provider_eq _ _ h3 h4]
    simp [initFlags, h1]
  · intro s h1 _ h3
    rw [parse_flags, parseLoop_device_eq _ _ h3]
    simp [initFlags, h1]
  · intro s h1 _ h3
    rw [parse_flags, parseLoop_session_name_eq _ _ h3]
    simp [initFlags, h1]
  · intro s h1 _ h3 h4
    rw [parse_flags, parseLoop_extensions_eq _ _ h3]
    simp [initFlags, h1, h4]

/-- C1 witness: the amended theorem applied at a concrete environment,
config and token list. -/
theorem claim_C1_witness :
    (parse_flags (envOf "AGENT_BROWSER_EXTENSIONS" " x , y ")
      (Json.obj [("extensions", Json.arr [Json.str "cfg"])]) ["open"]).extensions =
      splitExtensions " x , y " :=
  (claim_C1_env_wins (envOf "AGENT_BROWSER_EXTENSIONS" " x , y ")
      (Json.obj [("extensions", Json.arr [Json.str "cfg"])])
      ["open"]).2.2.2.2.2.2.2.2.2.2.2
    " x , y " (by decide) (by decide) (by decide) (by decide)

/-- C2: the parse loop and the stripper consume tokens in lockstep: both
recognize exactly the value-taking flags of `GLOBAL_FLAGS_WITH_VALUE`
(consuming the flag and, when present, the following token — only the
flag when it is last) and exactly the value-less flags of `GLOBAL_FLAGS`
plus `-f` (consuming one token); any other token is a no-op for the
parser and is kept by the stripper. -/
theorem claim_C2_lockstep :
    (∀ t v rest f, t ∈ GLOBAL_FLAGS_WITH_VALUE →
      parseLoop (t :: v :: rest) f = parseLoop rest (applyValue t v f) ∧
      clean_args (t :: v :: rest) = clean_args rest) ∧
    (∀ t f, t ∈ GLOBAL_FLAGS_WITH_VALUE →
      parseLoop [t] f = f ∧ clean_args [t] = []) ∧
    (∀ t rest f, t ∈ GLOBAL_FLAGS ∨ t = "-f" →
      parseLoop (t :: rest) f = parseLoop rest (applyBool t f) ∧
      clean_args (t :: rest) = clean_args rest) ∧
    (∀ t rest f, t ∉ GLOBAL_FLAGS_WITH_VALUE → t ∉ GLOBAL_FLAGS → t ≠ "-f" →
      parseLoop (t :: rest) f = parseLoop rest f ∧
      clean_args (t :: rest) = t :: clean_args rest) := by
  refine ⟨?_, ?_, ?_, ?_⟩
  · intro t v rest f h
    exact ⟨parseLoop_value_step t v rest f h, clean_args_value_step t v rest h⟩
  · intro t f h
    exact ⟨parseLoop_value_last t f h, clean_args_value_last t h⟩
  · intro t rest f h
    exact ⟨parseLoop_bool_step t rest f h,
      clean_args_bool_step t rest (bool_flag_not_value t h) h⟩
  · intro t rest f h1 h2 h3
    exact ⟨parseLoop_other_step t rest f h1 h2 h3, clean_args_other_step t rest h1 h2 h3⟩

/-- C2 witness: the lockstep theorem applied to a concrete value-taking
flag occurrence. -/
theorem claim_C2_witness :
    parseLoop ["--session", "--json"] (initFlags emptyEnv (Json.obj [])) =
      parseLoop [] (applyValue "--session" "--json" (initFlags emptyEnv (Json.obj []))) ∧
    clean_args ["--session", "--json"] = clean_args [] :=
  claim_C2_lockstep.1 "--session" "--json" [] (initFlags emptyEnv (Json.obj [])) (by decide)

/-- C3, counterexample: a user-level layer parsing to the non-object `5`
(project layer absent) is not replaced by the empty object — `load_config`
returns the non-object value itself. -/
theorem claim_C3_counterexample :
    load_config (some (Json.num 5)) none ≠ Json.obj [] := by
  intro h
  exact Json.noConfusion h

/-- C3 (amended): a user-level layer parsing to a non-object value is
adopted wholesale — with the project layer absent, `load_config` returns
that value itself, not the empty object; the layer still contributes no
key, since every key lookup on a non-object misses. -/
theorem claim_C3_nonobject_layer (v : Json) (h : v.as_object = none) :
    load_config (some v) none = v ∧ ∀ k, (load_config (some v) none).get k = none := by
  refine ⟨rfl, fun k => ?_⟩
  show v.get k = none
  cases v <;> simp_all [Json.get, Json.as_object]

/-- C3 witness: the amended theorem at the concrete non-object layer `5`. -/
theorem claim_C3_witness :
    load_config (some (Json.num 5)) none = Json.num 5 ∧
    ∀ k, (load_config (some (Json.num 5)) none).get k = none :=
  claim_C3_nonobject_layer (Json.num 5) rfl

/-- C4: a value-taking flag that is the last token is silently ignored:
the loop returns the flags unchanged (field and provenance untouched, no
error), consuming only that token; in particular a trailing
`--executable-path` leaves `executable_path` at the environment/config
resolution and `cli_executable_path` false. -/
theorem claim_C4_trailing_value_flag :
    (∀ t f, t ∈ GLOBAL_FLAGS_WITH_VALUE → parseLoop [t] f = f) ∧
    (∀ env config,
      (parse_flags env config ["--executable-path"]).executable_path =
        (initFlags env config).executable_path ∧
      (parse_flags env config ["--executable-path"]).cli_executable_path = false) := by
  refine ⟨fun t f h => parseLoop_value_last t f h, fun env config => ?_⟩
  rw [parse_flags, parseLoop_value_last _ _ (by decide)]
  exact ⟨rfl, rfl⟩

/-- C4 witness: the theorem at a concrete trailing value-taking flag. -/
theorem claim_C4_witness :
    parseLoop ["--cdp"] (initFlags emptyEnv (Json.obj [])) =
      initFlags emptyEnv (Json.obj []) :=
  claim_C4_trailing_value_flag.1 "--cdp" (initFlags emptyEnv (Json.obj [])) (by decide)

/-- C5: in the merged config tree, every key the project layer defines
maps to the project layer's value (wholesale, key-level override), and
every key the project layer does not define maps to the user layer's
lookup result. -/
theorem claim_C5_project_overrides (userFields projFields : List (String × Json))
    (hnd : (projFields.map Prod.fst).Nodup) :
    (∀ k v, lookupKey projFields k = some v →
      (load_config (some (Json.obj userFields)) (some (Json.obj projFields))).get k =
        some v) ∧
    (∀ k, lookupKey projFields k = none →
      (load_config (some (Json.obj userFields)) (some (Json.obj projFields))).get k =
        lookupKey userFields k) := by
  have hm : ∀ k,
      (load_config (some (Json.obj userFields)) (some (Json.obj projFields))).get k =
        (lookupKey projFields k).or (lookupKey userFields k) := by
    intro k
    show lookupKey (projFields.foldl (fun acc kv => insertKey acc kv.1 kv.2) userFields) k = _
    exact lookupKey_merge projFields userFields k hnd
  exact ⟨fun k v h => by rw [hm k, h]; rfl, fun k h => by rw [hm k, h]; rfl⟩

/-- C5 witness: the merge theorem at concrete two-layer configs with an
overlapping key and a user-only key. -/
theorem claim_C5_witness :
    (load_config (some (Json.obj [("a", Json.str "user"), ("b", Json.str "ub")]))
      (some (Json.obj [("a", Json.str "proj")]))).get "a" = some (Json.str "proj") ∧
    (load_config (some (Json.obj [("a", Json.str "user"), ("b", Json.str "ub")]))
      (some (Json.obj [("a", Json.str "proj")]))).get "b" = some (Json.str "ub") := by
  have h := claim_C5_project_overrides [("a", Json.str "user"), ("b", Json.str "ub")]
    [("a", Json.str "proj")] (by simp)
  exact ⟨h.1 "a" (Json.str "proj") rfl, h.2 "b" rfl⟩

/-- C6: each `--extension value` occurrence appends to the `extensions`
list (cumulative), while other value-taking flags such as `--profile`
replace their field so the last occurrence wins: concretely,
`--extension a --extension b` yields `["a", "b"]` and
`--profile x --profile y` yields `some "y"`. -/
theorem claim_C6_extension_cumulative :
    (∀ v rest f, parseLoop ("--extension" :: v :: rest) f =
      parseLoop rest { f with extensions := f.extensions ++ [v], cli_extensions := true }) ∧
    (∀ v rest f, parseLoop ("--profile" :: v :: rest) f =
      parseLoop rest { f with profile := some v, cli_profile := true }) ∧
    (parse_flags emptyEnv (Json.obj []) ["--extension", "a", "--extension", "b"]).extensions
      = ["a", "b"] ∧
    (parse_flags emptyEnv (Json.obj []) ["--profile", "x", "--profile", "y"]).profile
      = some "y" := by
  refine ⟨?_, ?_, by decide, by decide⟩
  · intro v rest f
    exact parseLoop_value_step "--extension" v rest f (by decide)
  · intro v rest f
    exact parseLoop_value_step "--profile" v rest f (by decide)

/-- C7: the stripped list is always an order-preserving subsequence of the
input, and stripping is idempotent: re-running `clean_args` on its own
output changes nothing. -/
theorem claim_C7_sublist_idempotent (tokens : List String) :
    List.Sublist (clean_args tokens) tokens ∧
    clean_args (clean_args tokens) = clean_args tokens :=
  ⟨clean_args_sublist tokens,
   clean_args_fixpoint (clean_args tokens) (clean_args_output_unrecognized tokens)⟩

/-- C8, counterexample: in `["--session", "--executable-path", "x"]` the
token `--executable-path` occurs with a following token, yet
`cli_executable_path` is false, because that occurrence is consumed as
`--session`'s value. -/
theorem claim_C8_counterexample :
    ["--session", "--executable-path", "x"][1]? = some "--executable-path" ∧
    ["--session", "--executable-path", "x"][2]? = some "x" ∧
    (parse_flags emptyEnv (Json.obj [])
      ["--session", "--executable-path", "x"]).cli_executable_path = false := by
  refine ⟨rfl, rfl, by decide⟩

/-- C8 (amended): `cli_executable_path` is true iff the left-to-right scan
reaches an occurrence of `--executable-path` as a flag — not as the token
consumed as a preceding value-taking flag's value — with a following
token (`hitsExecPath`); in particular it is false whenever
`executablePath` was set only via environment or config (no token
consulted). -/
theorem claim_C8_provenance (env : String → Option String) (config : Json)
    (tokens : List String) :
    (parse_flags env config tokens).cli_executable_path = hitsExecPath tokens := by
  rw [parse_flags, parseLoop_cli_executable_path_eq]
  simp [initFlags]

/-- C9: the boolean options `headed`, `allowFileAccess` and `autoConnect`
are monotone in the CLI layer: once the environment presence check or the
config key resolves them true, no token list can make them false. -/
theorem claim_C9_bool_monotone (env : String → Option String) (config : Json)
    (tokens : List String) :
    ((env "AGENT_BROWSER_HEADED").isSome = true ∨
        (config.get "headed").bind Json.as_bool = some true →
      (parse_flags env config tokens).headed = true) ∧
    ((env "AGENT_BROWSER_ALLOW_FILE_ACCESS").isSome = true ∨
        (config.get "allowFileAccess").bind Json.as_bool = some true →
      (parse_flags env config tokens).allow_file_access = true) ∧
    ((env "AGENT_BROWSER_AUTO_CONNECT").isSome = true ∨
        (config.get "autoConnect").bind Json.as_bool = some true →
      (parse_flags env config tokens).auto_connect = true) := by
  refine ⟨?_, ?_, ?_⟩
  · intro h
    rw [parse_flags]
    apply parseLoop_headed_mono
    rcases h with h|h <;> simp [initFlags, h]
  · intro h
    rw [parse_flags]
    apply parseLoop_allow_file_access_mono
    rcases h with h|h <;> simp [initFlags, h]
  · intro h
    rw [parse_flags]
    apply parseLoop_auto_connect_mono
    rcases h with h|h <;> simp [initFlags, h]

/-- C9 witness: the monotonicity theorem with `headed` forced by the
environment and a CLI token list present. -/
theorem claim_C9_witness :
    (parse_flags (envOf "AGENT_BROWSER_HEADED" "1") (Json.obj []) ["open"]).headed = true :=
  (claim_C9_bool_monotone (envOf "AGENT_BROWSER_HEADED" "1") (Json.obj []) ["open"]).1
    (Or.inl (by decide))

/-- C10: the token after a recognized value-taking flag is consumed as a
literal value even when spelled like a flag, in both components:
`["--session", "--json"]` parses to `session = "--json"` with
`json = false`, and the stripper drops both tokens. -/
theorem claim_C10_value_literal :
    (∀ v rest f, parseLoop ("--session" :: v :: rest) f =
      parseLoop rest { f with session := v }) ∧
    (∀ v rest, clean_args ("--session" :: v :: rest) = clean_args rest) ∧
    (parse_flags emptyEnv (Json.obj []) ["--session", "--json"]).session = "--json" ∧
    (parse_flags emptyEnv (Json.obj []) ["--session", "--json"]).json = false ∧
    clean_args ["--session", "--json"] = [] := by
  refine ⟨?_, ?_, by decide, by decide, by decide⟩
  · intro v rest f
    exact parseLoop_value_step "--session" v rest f (by decide)
  · intro v rest
    exact clean_args_value_step "--session" v rest (by decide)
